import Mathlib

/-!
Verification development for the `pyhaopenmotics` client library.

This file gives a shallow embedding, in Lean 4, of the request/retry/token
machinery of `pyhaopenmotics/client/baseclient.py` and
`pyhaopenmotics/client/localgateway.py`, of the payload construction in
`pyhaopenmotics/cloud/outputs.py`, and of the `mashumaro`-based
deserialization of the gateway models
(`pyhaopenmotics/openmoticsgw/models/{base,input,location}.py`).

Modelling conventions:
* Python `float` timestamps (`time.time()`, `token_expires_at`) are modelled
  as `Int` seconds; every comparison used by the code is order-preserving
  under this change.
* JSON numbers are modelled as `Int` (all numeric values relevant to the
  claims are integral).
* Python dicts are modelled as association lists with the usual
  first-occurrence lookup; dict assignment replaces the first matching key
  in place or appends, matching insertion-order semantics.
* Async functions are modelled as pure functions over explicit state; an
  HTTP call is represented by its outcome (`RawOutcome`), and exceptions by
  `Except` results.
-/

namespace PyHAOM

/-- JSON values, with numbers restricted to integers. -/
inductive Json where
  | null : Json
  | bool : Bool → Json
  | num : Int → Json
  | str : String → Json
  | arr : List Json → Json
  | obj : List (String × Json) → Json
deriving Repr

/-- Lookup of a key in a string-keyed association list (Python `dict.get`). -/
def headerGet (hs : List (String × String)) (k : String) (dflt : String) : String :=
  match hs.lookup k with
  | some v => v
  | none => dflt

/-- Modelled from the spec: the exception classes of `client/errors.py` are not
under `src/`; per spec section 4.1 the taxonomy is flat ("no inheritance needed
beyond a common base"), so the four kinds are modelled as a plain enumeration. -/
inductive OMErrorKind where
  | authenticationError
  | connectionError
  | connectionTimeoutError
  | connectionSslError
deriving Repr, DecidableEq

/-- An exception of the library taxonomy: a kind together with its message. -/
structure OMError where
  kind : OMErrorKind
  msg : String
deriving Repr, DecidableEq

/-- Outcome of the underlying `aiohttp` call inside `BaseClient._request`:
either an HTTP response (with status, headers, reason phrase and body, the
body given both parsed and as raw text), or one of the exception shapes the
`try`/`except` chain of `_request` distinguishes. -/
inductive RawOutcome where
  | response (status : Nat) (headers : List (String × String)) (reason : String)
      (jsonBody : Json) (textBody : String)
  | timeoutError
  | sslError
  | gaierror
  | clientError
  | otherError (msg : String)

/-- Value returned by `_request` on success: parsed JSON or raw text. -/
inductive ReqValue where
  | json (j : Json)
  | text (s : String)
deriving Repr

/-- A single-quote character, kept out of string literals. -/
def squote : String := String.singleton (Char.ofNat 39)

/-- Message built by `_request` for a non-auth HTTP error status, mirroring
the f-string `"Error occurred while communicating with OpenMotics API:
{status}, message={message}"` (with the message in single quotes). -/
def connectionErrorHttpMsg (status : Nat) (reason : String) : String :=
  "Error occurred while communicating with OpenMotics API: " ++ toString status
    ++ ", message=" ++ squote ++ reason ++ squote

/-- Whether a Content-Type string indicates JSON: the code tests
`"application/json" in content_type`, i.e. substring containment. -/
def contentTypeIsJson (ct : String) : Bool :=
  decide ("application/json".data <:+: ct.data)

/-- One attempt of `BaseClient._request`, embedding the `raise_for_status`
check and the `try`/`except` classification chain: status 401/403 raise
`AuthenticationError`; any other status at least 400 raises
`OpenMoticsConnectionError` carrying status and reason; `TimeoutError` maps to
`OpenMoticsConnectionTimeoutError`; `ClientConnectorSSLError` maps to
`OpenMoticsConnectionSslError`; `socket.gaierror` and `aiohttp.ClientError`
map to `OpenMoticsConnectionError`; any other exception is wrapped as
`OpenMoticsConnectionError`. On a success status the Content-Type header
drives JSON-vs-text dispatch. -/
def omRequest : RawOutcome → Except OMError ReqValue
  | .response status hs reason jsonBody textBody =>
    if 400 ≤ status then
      if status = 401 ∨ status = 403 then
        Except.error ⟨.authenticationError, ""⟩
      else
        Except.error ⟨.connectionError, connectionErrorHttpMsg status reason⟩
    else if contentTypeIsJson (headerGet hs "Content-Type" "") then
      Except.ok (.json jsonBody)
    else
      Except.ok (.text textBody)
  | .timeoutError =>
    Except.error ⟨.connectionTimeoutError, "Timeout occurred while connecting to OpenMotics API."⟩
  | .sslError =>
    Except.error ⟨.connectionSslError, "Error with SSL certificate."⟩
  | .gaierror =>
    Except.error ⟨.connectionError, "Error occurred while communicating with OpenMotics API."⟩
  | .clientError =>
    Except.error ⟨.connectionError, "Error occurred while communicating with OpenMotics API."⟩
  | .otherError m =>
    Except.error ⟨.connectionError,
      "Unexpected error occurred while communicating with OpenMotics API: " ++ m⟩

/-- Whether a raw outcome is a transport/protocol failure (as opposed to an
HTTP response that was received). -/
def isTransportFailure : RawOutcome → Bool
  | .response _ _ _ _ _ => false
  | _ => true

/-- Whether `stamina.retry(on=OpenMoticsConnectionError, ...)` retries the
raised exception: exactly the `connectionError` kind (the taxonomy being flat,
timeout/SSL/authentication errors are not instances of it). -/
def retriesOn (e : OMError) : Bool :=
  match e.kind with
  | .connectionError => true
  | _ => false

/-- Retry loop of `stamina.retry(on=OpenMoticsConnectionError, attempts=3)`
around `_request`: `fuel` is the number of retries still allowed after the
current attempt, `idx` the index of the current attempt, and `f` gives the raw
outcome of each attempt. Returns the final result and the total number of
attempts performed. -/
def retryLoop : Nat → Nat → (Nat → RawOutcome) → Except OMError ReqValue × Nat
  | 0, idx, f => (omRequest (f idx), idx + 1)
  | fuel + 1, idx, f =>
    match omRequest (f idx) with
    | .ok v => (.ok v, idx + 1)
    | .error e =>
      if retriesOn e then retryLoop fuel (idx + 1) f else (.error e, idx + 1)

/-- `_request` with its decorator: at most 3 attempts total. -/
def requestWithRetry (f : Nat → RawOutcome) : Except OMError ReqValue × Nat :=
  retryLoop 2 0 f

theorem retryLoop_count_le (fuel : Nat) :
    ∀ (idx : Nat) (f : Nat → RawOutcome), (retryLoop fuel idx f).2 ≤ idx + fuel + 1 := by
  induction fuel with
  | zero => intro idx f; simp [retryLoop]
  | succ n ih =>
    intro idx f
    simp only [retryLoop]
    cases omRequest (f idx) with
    | ok v => show idx + 1 ≤ idx + (n + 1) + 1; omega
    | error e =>
      cases hR : retriesOn e with
      | false =>
        dsimp only
        rw [hR, if_neg Bool.false_ne_true]
        show idx + 1 ≤ idx + (n + 1) + 1
        omega
      | true =>
        dsimp only
        rw [hR, if_pos rfl]
        have := ih (idx + 1) f
        omega

/-- Dict assignment on a string-valued association list: `hs[k] = v` replaces
the value at the first occurrence of `k` in place, or appends the pair. -/
def dictSetStr : List (String × String) → String → String → List (String × String)
  | [], k, v => [(k, v)]
  | p :: rest, k, v => if p.1 == k then (k, v) :: rest else p :: dictSetStr rest k v

/-- Python `str.strip()`: remove leading and trailing whitespace. -/
def pyStrip (s : String) : String :=
  String.mk (((s.data.dropWhile Char.isWhitespace).reverse.dropWhile
    Char.isWhitespace).reverse)

/-- Token normalization in `BaseClient.__init__`:
`self.token = token.strip() if token else None` (both `None` and the empty
string are falsy). -/
def stripToken : Option String → Option String
  | none => none
  | some s => if s = "" then none else some (pyStrip s)

/-- `BaseClient._get_auth_headers`: start from the caller headers (or an empty
dict), always set `User-Agent`, and add `Authorization: Bearer <token>` only
when the stored token is truthy (present and non-empty). -/
def base_get_auth_headers (token : Option String) (ua : String)
    (headers : Option (List (String × String))) : List (String × String) :=
  let hs := match headers with
    | none => []
    | some h => h
  let hs := dictSetStr hs "User-Agent" ua
  match token with
  | none => hs
  | some t => if t = "" then hs else dictSetStr hs "Authorization" ("Bearer " ++ t)

/-- Connection-lifecycle state of `BaseClient`: the (identity of the) held
`aiohttp` session, if any, and the `_close_session` ownership flag. -/
structure ClientConn where
  session : Option Nat
  close_session : Bool
deriving Repr, DecidableEq

/-- `BaseClient.__init__`: store the caller-supplied session (or none);
`_close_session` starts out `False`. -/
def initClient (session : Option Nat) : ClientConn :=
  { session := session, close_session := false }

/-- Lazy session creation in `_request`: `if self.session is None:`
create a fresh session and set `_close_session = True`. -/
def ensureSession (c : ClientConn) (fresh : Nat) : ClientConn :=
  match c.session with
  | none => { session := some fresh, close_session := true }
  | some _ => c

/-- `BaseClient.close`: `if self.session and self._close_session:` await
`session.close()` and clear the slot. The returned flag records whether
`session.close()` was actually awaited. -/
def closeClient (c : ClientConn) : ClientConn × Bool :=
  match c.session, c.close_session with
  | some _, true => ({ session := none, close_session := c.close_session }, true)
  | _, _ => (c, false)

/-- `BaseClient.__aenter__`: returns the client itself. -/
def aenter (c : ClientConn) : ClientConn := c

/-- Scoped use (`async with client: body`): enter, run the body, and run
`__aexit__` (which awaits `close()`) on both the normal and the exceptional
exit path, then deliver the body result. -/
def runScoped (c : ClientConn) (body : ClientConn → ClientConn × Except E A) :
    ClientConn × Except E A :=
  match body (aenter c) with
  | (c1, .ok a) => ((closeClient c1).1, .ok a)
  | (c1, .error e) => ((closeClient c1).1, .error e)

/-- `LOCAL_TOKEN_EXPIRES_IN` from `localgateway.py`. -/
def LOCAL_TOKEN_EXPIRES_IN : Int := 3600

/-- `CLOCK_OUT_OF_SYNC_MAX_SEC` from `localgateway.py`. -/
def CLOCK_OUT_OF_SYNC_MAX_SEC : Int := 20

/-- Credential state of `LocalGateway`: `self.token` (a JSON value, or `None`)
and `self.token_expires_at` (wall-clock seconds, initially `0`). -/
structure LGState where
  token : Option Json
  token_expires_at : Int

/-- Whether `self.token is None`. -/
def tokenIsNone (st : LGState) : Bool :=
  match st.token with
  | none => true
  | some _ => false

/-- Login condition of `LocalGateway._get_auth_headers`:
`self.token is None or self.token_expires_at < time.time() + CLOCK_OUT_OF_SYNC_MAX_SEC`. -/
def needsLogin (st : LGState) (now : Int) : Bool :=
  tokenIsNone st || decide (st.token_expires_at < now + CLOCK_OUT_OF_SYNC_MAX_SEC)

/-- Observable calls issued by one authenticated operation: the login
request of `get_token`, or the target request of `_request`. -/
inductive CallEvent where
  | login
  | request (path : String)
deriving Repr, DecidableEq

/-- Requests issued by one `get`/`post` call on `LocalGateway`: the header
hook `_get_auth_headers` performs `get_token` (one login request) exactly when
`needsLogin` holds, after which `_request` issues the target request. -/
def lgRequestPlan (st : LGState) (now : Int) (path : String) : List CallEvent :=
  (if needsLogin st now then [CallEvent.login] else []) ++ [CallEvent.request path]

/-- Lookup of a key in a JSON object (Python `response[key]`, as an option). -/
def jsonGet (j : Json) (k : String) : Option Json :=
  match j with
  | .obj fields => fields.lookup k
  | _ => none

/-- Assignment of `self.token = value`, identifying JSON `null` with Python
`None`. -/
def storedToken (v : Json) : Option Json :=
  match v with
  | .null => none
  | v => some v

/-- Failures escaping `LocalGateway.get_token`: an engine error from
`_request`, or a `KeyError` from indexing the response dict. -/
inductive PyFailure where
  | om (e : OMError)
  | keyError (k : String)
deriving Repr, DecidableEq

/-- `LocalGateway.get_token`, as a function of the current state, the current
time and the outcome of `_request("login", ...)`. If `_request` raises, the
exception propagates and the state is untouched; otherwise
`if response["success"] is True:` store the response token and set
`token_expires_at = time.time() + LOCAL_TOKEN_EXPIRES_IN`, else reset to
`(None, 0)`. Missing keys raise `KeyError` (state untouched). -/
def get_token (st : LGState) (now : Int) (resp : Except OMError Json) :
    LGState × Option PyFailure :=
  match resp with
  | .error e => (st, some (.om e))
  | .ok j =>
    match jsonGet j "success" with
    | none => (st, some (.keyError "success"))
    | some s =>
      match s with
      | .bool true =>
        match jsonGet j "token" with
        | none => (st, some (.keyError "token"))
        | some t =>
          ({ token := storedToken t, token_expires_at := now + LOCAL_TOKEN_EXPIRES_IN }, none)
      | _ => ({ token := none, token_expires_at := 0 }, none)

/-- Default ports known to `yarl` for the schemes this client uses; `yarl`
omits the port from `str(URL)` when it equals the scheme default. -/
def yarlDefaultPort (scheme : String) : Option Nat :=
  if scheme = "https" then some 443
  else if scheme = "http" then some 80
  else if scheme = "wss" then some 443
  else if scheme = "ws" then some 80
  else none

/-- Resolution of the request path against the root: `URL.build(..., path="/")
.join(URL(path))` yields the path itself when absolute, and mounts a relative
path (such as `"login"`) under `/`. -/
def absolutePath (path : String) : String :=
  match path.data with
  | '/' :: _ => path
  | _ => "/" ++ path

/-- Restriction under which the string model of `yarl` is exact: a plain path
of URL-safe characters that is not a network-path reference (no `//` prefix),
with no query, fragment, percent-encoding or dot segments. All paths the
client builds are of this shape. -/
def simplePath (path : String) : Prop :=
  path.data.all (fun c => c.isAlphanum || c = '/' || c = '_' || c = '-' || c = '.') = true
    ∧ ¬ "//".data <+: path.data ∧ ¬ "..".data <:+: path.data

/-- String rendering of `URL.build(scheme=scheme, host=host, port=port,
path="/").join(URL(path))` for simple paths: `yarl` prints the port only when
it differs from the scheme default. -/
def yarlBuildJoin (scheme host : String) (port : Nat) (path : String) : String :=
  let portPart := match yarlDefaultPort scheme with
    | some d => if d = port then "" else ":" ++ toString port
    | none => ":" ++ toString port
  scheme ++ "://" ++ host ++ portPart ++ absolutePath path

/-- `LocalGateway._get_url`: build `scheme://host[:port]/path` from the
configured host (`self.localgw`) and port (`self.port`). -/
def lg_get_url (localgw : String) (port : Nat) (path : String) (scheme : String) : String :=
  yarlBuildJoin scheme localgw port path

/-- Default value of the `scheme` parameter of `_get_url`. -/
def lg_default_scheme : String := "https"

/-- Default value of the `port` parameter of `LocalGateway.__init__`. -/
def lg_default_port : Nat := 443

/-- Clamp and payload construction of `OpenMoticsOutputs.turn_on` in
`cloud/outputs.py`: with a value, `value = min(value, 100)` then
`value = max(0, value)` and the body is `{"value": value}`; with `None`, the
body is the empty object. Returns the posted path and body. -/
def outputs_turn_on (installation_id output_id : Int) (value : Option Int) :
    String × List (String × Int) :=
  let payload := match value with
    | none => []
    | some v => [("value", max 0 (min v 100))]
  ("/base/installations/" ++ toString installation_id ++ "/outputs/"
      ++ toString output_id ++ "/turn_on",
    payload)

/-- Dict assignment on a JSON object body (`d[k] = v`). -/
def dictSet : List (String × Json) → String → Json → List (String × Json)
  | [], k, v => [(k, v)]
  | p :: rest, k, v => if p.1 == k then (k, v) :: rest else p :: dictSet rest k v

/-- Python `d.get(k) is None`: the key is absent, or its value is `null`. -/
def pyGetIsNone (d : List (String × Json)) (k : String) : Bool :=
  match d.lookup k with
  | none => true
  | some .null => true
  | some _ => false

/-- Python `value == 1` for a JSON value (`True == 1` holds in Python). -/
def pyEqOne (j : Json) : Bool :=
  match j with
  | .num 1 => true
  | .bool true => true
  | _ => false

/-- Python truthiness of a JSON value (`bool(value)`). -/
def pyTruthy (j : Json) : Bool :=
  match j with
  | .null => false
  | .bool b => b
  | .num n => decide (n ≠ 0)
  | .str s => decide (s ≠ "")
  | .arr l => !l.isEmpty
  | .obj l => !l.isEmpty

/-- `mashumaro` unpacking of a `bool` field (`bool(value)`). -/
def unpackBool (j : Json) : Except String Bool :=
  Except.ok (pyTruthy j)

/-- `mashumaro` unpacking of an `int` field (`int(value)`); numeric strings
are out of the modelled scope and reported as failures. -/
def unpackInt (j : Json) : Except String Int :=
  match j with
  | .num n => .ok n
  | .bool b => .ok (if b then 1 else 0)
  | _ => .error "int"

/-- `mashumaro` unpacking of a `float` field, with floats modelled as `Int`. -/
def unpackFloat (j : Json) : Except String Int :=
  match j with
  | .num n => .ok n
  | .bool b => .ok (if b then 1 else 0)
  | _ => .error "float"

/-- `mashumaro` unpacking of a `str` field. -/
def unpackStr (j : Json) : Except String String :=
  match j with
  | .str s => .ok s
  | _ => .error "str"

/-- `mashumaro` field unpacking: a missing key falls back to the field
default; a present value must unpack, and a failure aborts `from_dict`
(`InvalidFieldValue`). -/
def unpackField (d : List (String × Json)) (key : String) (dflt : A)
    (up : Json → Except String A) : Except String A :=
  match d.lookup key with
  | none => .ok dflt
  | some v => up v

/-- `Status` of `openmoticsgw/models/input.py`: `on` (written `on_` because
`on` is notation in Lean), `locked`, and `value` (deserialized from the alias
key `dimmer`). -/
structure InputStatus where
  on_ : Bool
  locked : Bool
  value : Int
deriving Repr, DecidableEq

/-- `Status.__pre_deserialize__` of `input.py`:
`if d.get("status") == 1: d["on"] = True`. -/
def inputStatus_pre_deserialize (d : List (String × Json)) : List (String × Json) :=
  match d.lookup "status" with
  | some v => if pyEqOne v then dictSet d "on" (Json.bool true) else d
  | none => d

/-- `mashumaro` unpacker for the `Status` dataclass of `input.py`: the value
must be a mapping (`__pre_deserialize__` dereferences it with `.get`), then
each field is read with its default. -/
def inputStatus_unpack (j : Json) : Except String InputStatus :=
  match j with
  | .obj fields => do
    let d := inputStatus_pre_deserialize fields
    let o ← unpackField d "on" false unpackBool
    let l ← unpackField d "locked" false unpackBool
    let v ← unpackField d "dimmer" 0 unpackInt
    return { on_ := o, locked := l, value := v }
  | _ => .error "Status: value is not a mapping"

/-- `mashumaro` unpacker for an optional `Status` field
(`status: Status | None`): `null` maps to `None`, anything else must unpack
as `Status`. -/
def unpackOptStatus (j : Json) : Except String (Option InputStatus) :=
  match j with
  | .null => .ok none
  | v => (inputStatus_unpack v).map some

/-- `OpenMoticsBase.__pre_deserialize__` of `base.py`:
`if d.get("id") is not None and d.get("local_id") is None:
d["local_id"] = d["id"]`. -/
def openMoticsBase_pre_deserialize (d : List (String × Json)) : List (String × Json) :=
  if !(pyGetIsNone d "id") && pyGetIsNone d "local_id" then
    match d.lookup "id" with
    | some idv => dictSet d "local_id" idv
    | none => d
  else d

/-- `OMInput` of `openmoticsgw/models/input.py`: the three base fields
(`idx` aliased from `id`, `local_id`, `name`) and the input-specific fields.
The model has no location field; the room is kept as the flat `room` int. -/
structure OMInput where
  idx : Int
  local_id : Int
  name : String
  status : Option InputStatus
  last_state_change : Int
  room : Int
  version : String
deriving Repr, DecidableEq

/-- `OMInput.from_dict`: `__pre_deserialize__` (the base's id-to-local_id
copy), then field-by-field unpacking with defaults
(`idx = 0`, `local_id = 0`, `name = "None"`, `status = None`,
`last_state_change = 0.0`, `room = 0`, `version = "0.0"`). -/
def OMInput.from_dict (j : Json) : Except String OMInput :=
  match j with
  | .obj fields => do
    let d := openMoticsBase_pre_deserialize fields
    let idx ← unpackField d "id" 0 unpackInt
    let lid ← unpackField d "local_id" 0 unpackInt
    let nm ← unpackField d "name" "None" unpackStr
    let st ← unpackField d "status" none unpackOptStatus
    let lsc ← unpackField d "last_state_change" 0 unpackFloat
    let rm ← unpackField d "room" 0 unpackInt
    let ver ← unpackField d "version" "0.0" unpackStr
    return { idx := idx, local_id := lid, name := nm, status := st,
             last_state_change := lsc, room := rm, version := ver }
  | _ => .error "OMInput: value is not a mapping"

/-- `FloorCoordinates` of `openmoticsgw/models/location.py`. -/
structure FloorCoordinates where
  x : Int
  y : Int
deriving Repr, DecidableEq

/-- `mashumaro` unpacker for `FloorCoordinates`. -/
def floorCoordinates_unpack (j : Json) : Except String FloorCoordinates :=
  match j with
  | .obj d => do
    let x ← unpackField d "x" 0 unpackInt
    let y ← unpackField d "y" 0 unpackInt
    return { x := x, y := y }
  | _ => .error "FloorCoordinates: value is not a mapping"

/-- `mashumaro` unpacker for `floor_coordinates: FloorCoordinates | None`. -/
def unpackOptFloorCoordinates (j : Json) : Except String (Option FloorCoordinates) :=
  match j with
  | .null => .ok none
  | v => (floorCoordinates_unpack v).map some

/-- `Location` of `openmoticsgw/models/location.py`. -/
structure Location where
  installation_id : Int
  gateway_id : Int
  floor_id : Int
  room_id : Int
  floor_coordinates : Option FloorCoordinates
deriving Repr, DecidableEq

/-- `Location.__pre_deserialize__`: copy the flat `room` key into `room_id`
when `room_id` is absent and `room` is present, and null out an incomplete
`floor_coordinates` mapping. -/
def location_pre_deserialize (d : List (String × Json)) : List (String × Json) :=
  let d1 :=
    if pyGetIsNone d "room_id" && !(pyGetIsNone d "room") then
      match d.lookup "room" with
      | some r => dictSet d "room_id" r
      | none => d
    else d
  match d1.lookup "floor_coordinates" with
  | some (.obj fc) =>
    if (fc.lookup "x").isNone || (fc.lookup "y").isNone then
      dictSet d1 "floor_coordinates" Json.null
    else d1
  | _ => d1

/-- `Location.from_dict`: `__pre_deserialize__`, then field unpacking with
all-zero defaults and an optional `floor_coordinates`. -/
def Location.from_dict (j : Json) : Except String Location :=
  match j with
  | .obj fields => do
    let d := location_pre_deserialize fields
    let iid ← unpackField d "installation_id" 0 unpackInt
    let gid ← unpackField d "gateway_id" 0 unpackInt
    let fid ← unpackField d "floor_id" 0 unpackInt
    let rid ← unpackField d "room_id" 0 unpackInt
    let fc ← unpackField d "floor_coordinates" none unpackOptFloorCoordinates
    return { installation_id := iid, gateway_id := gid, floor_id := fid,
             room_id := rid, floor_coordinates := fc }
  | _ => .error "Location: value is not a mapping"

/-- The flattened JSON object of the deserialization claim. -/
def kitchenJson : Json :=
  Json.obj [("id", Json.num 5), ("name", Json.str "Kitchen"),
    ("room", Json.num 2), ("status", Json.num 1)]

/-- The same object without the scalar `status` entry. -/
def kitchenJsonNoStatus : Json :=
  Json.obj [("id", Json.num 5), ("name", Json.str "Kitchen"), ("room", Json.num 2)]

theorem retriesOn_iff (e : OMError) :
    retriesOn e = true ↔ e.kind = OMErrorKind.connectionError := by
  rcases e with ⟨k, m⟩
  cases k <;> simp [retriesOn]

theorem retryLoop_count_ge (fuel : Nat) :
    ∀ (idx : Nat) (f : Nat → RawOutcome), idx + 1 ≤ (retryLoop fuel idx f).2 := by
  induction fuel with
  | zero => intro idx f; simp [retryLoop]
  | succ n ih =>
    intro idx f
    simp only [retryLoop]
    cases omRequest (f idx) with
    | ok v => show idx + 1 ≤ idx + 1; omega
    | error e =>
      cases hR : retriesOn e with
      | false =>
        dsimp only
        rw [hR, if_neg Bool.false_ne_true]
      | true =>
        dsimp only
        rw [hR, if_pos rfl]
        have := ih (idx + 1) f
        omega

/-- C1: for every call through the request engine, a response with status 401
or 403 raises `AuthenticationError`; any other error status at least 400
raises `ConnectionError` carrying the status code and server message; a
timeout raises `ConnectionTimeoutError`; a TLS failure raises
`ConnectionSslError`; name-resolution failures, generic transport failures
and unexpected exceptions become `ConnectionError`; no raw transport
exception escapes the engine boundary. -/
theorem omRequest_error_classification (status : Nat) (hs : List (String × String))
    (reason : String) (jb : Json) (tb : String) :
    ((status = 401 ∨ status = 403) →
      omRequest (.response status hs reason jb tb) =
        Except.error ⟨OMErrorKind.authenticationError, ""⟩) ∧
    (400 ≤ status → status ≠ 401 → status ≠ 403 →
      omRequest (.response status hs reason jb tb) =
        Except.error ⟨OMErrorKind.connectionError, connectionErrorHttpMsg status reason⟩) ∧
    omRequest .timeoutError =
      Except.error ⟨OMErrorKind.connectionTimeoutError,
        "Timeout occurred while connecting to OpenMotics API."⟩ ∧
    omRequest .sslError =
      Except.error ⟨OMErrorKind.connectionSslError, "Error with SSL certificate."⟩ ∧
    (omRequest .gaierror).isOk = false ∧
    omRequest .gaierror =
      Except.error ⟨OMErrorKind.connectionError,
        "Error occurred while communicating with OpenMotics API."⟩ ∧
    omRequest .clientError =
      Except.error ⟨OMErrorKind.connectionError,
        "Error occurred while communicating with OpenMotics API."⟩ ∧
    (∀ m, omRequest (.otherError m) =
      Except.error ⟨OMErrorKind.connectionError,
        "Unexpected error occurred while communicating with OpenMotics API: " ++ m⟩) ∧
    (∀ raw, isTransportFailure raw = true → ∃ e, omRequest raw = Except.error e) := by
  refine ⟨?_, ?_, rfl, rfl, rfl, rfl, rfl, fun m => rfl, ?_⟩
  · rintro (rfl | rfl) <;> rfl
  · intro h1 h2 h3
    have hor : ¬(status = 401 ∨ status = 403) := not_or.mpr ⟨h2, h3⟩
    simp [omRequest, h1, hor]
  · intro raw hr
    cases raw with
    | response st hs2 r2 j2 t2 => simp [isTransportFailure] at hr
    | timeoutError => exact ⟨_, rfl⟩
    | sslError => exact ⟨_, rfl⟩
    | gaierror => exact ⟨_, rfl⟩
    | clientError => exact ⟨_, rfl⟩
    | otherError m => exact ⟨_, rfl⟩

/-- C1 witness: concrete classifications (403 authentication error, 500
connection error with status and reason in the message, DNS failure). -/
theorem omRequest_error_classification_witness :
    omRequest (.response 403 [] "Forbidden" Json.null "") =
      Except.error ⟨OMErrorKind.authenticationError, ""⟩ ∧
    omRequest (.response 500 [] "Server Error" Json.null "") =
      Except.error ⟨OMErrorKind.connectionError, connectionErrorHttpMsg 500 "Server Error"⟩ ∧
    (∃ e, omRequest RawOutcome.gaierror = Except.error e) :=
  ⟨(omRequest_error_classification 403 [] "Forbidden" Json.null "").1 (Or.inr rfl),
   (omRequest_error_classification 500 [] "Server Error" Json.null "").2.1
     (by decide) (by decide) (by decide),
   (omRequest_error_classification 500 [] "Server Error" Json.null
       "").2.2.2.2.2.2.2.2 RawOutcome.gaierror rfl⟩

/-- C2: the whole request operation is retried automatically up to 3 attempts
total when the failure is classified `ConnectionError`; authentication, SSL
and timeout failures are never retried by the engine itself. -/
theorem requestWithRetry_policy (f : Nat → RawOutcome) :
    (requestWithRetry f).2 ≤ 3 ∧
    (∀ v, omRequest (f 0) = Except.ok v → requestWithRetry f = (Except.ok v, 1)) ∧
    (∀ e, omRequest (f 0) = Except.error e → e.kind ≠ OMErrorKind.connectionError →
      requestWithRetry f = (Except.error e, 1)) ∧
    (∀ e, omRequest (f 0) = Except.error e → e.kind = OMErrorKind.connectionError →
      2 ≤ (requestWithRetry f).2) := by
  refine ⟨?_, ?_, ?_, ?_⟩
  · have := retryLoop_count_le 2 0 f
    simpa [requestWithRetry] using this
  · intro v h
    simp [requestWithRetry, retryLoop, h]
  · intro e h hk
    have hro : retriesOn e = false := by
      rw [← Bool.not_eq_true, retriesOn_iff]; exact hk
    simp [requestWithRetry, retryLoop, h, hro]
  · intro e h hk
    have hro : retriesOn e = true := (retriesOn_iff e).mpr hk
    have hstep : requestWithRetry f = retryLoop 1 (0 + 1) f := by
      simp [requestWithRetry, retryLoop, h, hro]
    rw [hstep]
    have := retryLoop_count_ge 1 (0 + 1) f
    omega

/-- C2 witness: a timeout is surfaced after a single attempt, while a DNS
failure (classified as a connection error) leads to a second attempt. -/
theorem requestWithRetry_policy_witness :
    requestWithRetry (fun _ => RawOutcome.timeoutError) =
      (Except.error ⟨OMErrorKind.connectionTimeoutError,
        "Timeout occurred while connecting to OpenMotics API."⟩, 1) ∧
    2 ≤ (requestWithRetry (fun _ => RawOutcome.gaierror)).2 :=
  ⟨(requestWithRetry_policy (fun _ => RawOutcome.timeoutError)).2.2.1 _ rfl (by decide),
   (requestWithRetry_policy (fun _ => RawOutcome.gaierror)).2.2.2 _ rfl rfl⟩

/-- C5: for every successful response whose Content-Type indicates
`application/json`, the engine returns the parsed JSON body equal to the
server body; for any other content type it returns the raw response text
unchanged. -/
theorem omRequest_content_type_dispatch (status : Nat) (hs : List (String × String))
    (reason : String) (jb : Json) (tb : String) (h : status < 400) :
    (contentTypeIsJson (headerGet hs "Content-Type" "") = true →
      omRequest (.response status hs reason jb tb) = Except.ok (ReqValue.json jb)) ∧
    (contentTypeIsJson (headerGet hs "Content-Type" "") = false →
      omRequest (.response status hs reason jb tb) = Except.ok (ReqValue.text tb)) := by
  constructor <;> intro hct <;> simp [omRequest, Nat.not_le.mpr h, hct]

/-- C5 witness: a 200 response with a JSON content type returns the parsed
body; a 200 response with a plain-text content type returns the text. -/
theorem omRequest_content_type_dispatch_witness :
    omRequest (.response 200 [("Content-Type", "application/json; charset=utf-8")] "OK"
        (Json.obj [("success", Json.bool true)]) "ignored") =
      Except.ok (ReqValue.json (Json.obj [("success", Json.bool true)])) ∧
    omRequest (.response 200 [("Content-Type", "text/plain")] "OK" Json.null "hello") =
      Except.ok (ReqValue.text "hello") :=
  ⟨(omRequest_content_type_dispatch 200 [("Content-Type", "application/json; charset=utf-8")]
      "OK" (Json.obj [("success", Json.bool true)]) "ignored" (by decide)).1 (by decide),
   (omRequest_content_type_dispatch 200 [("Content-Type", "text/plain")]
      "OK" Json.null "hello" (by decide)).2 (by decide)⟩

/-- C3: for every local-gateway authenticated call, a login is performed
before the target request if and only if the token is absent or
`token_expires_at < now + 20`; a call holding a token with
`token_expires_at ≥ now + 20` triggers no login, and a client with no prior
token performs exactly one login before the target call. -/
theorem lgRequestPlan_login_iff (st : LGState) (now : Int) (path : String) :
    ((CallEvent.login ∈ lgRequestPlan st now path) ↔
      (st.token = none ∨ st.token_expires_at < now + CLOCK_OUT_OF_SYNC_MAX_SEC)) ∧
    (∀ t, st.token = some t →
      now + CLOCK_OUT_OF_SYNC_MAX_SEC ≤ st.token_expires_at →
      lgRequestPlan st now path = [CallEvent.request path]) ∧
    (st.token = none →
      lgRequestPlan st now path = [CallEvent.login, CallEvent.request path]) := by
  rcases st with ⟨tok, exp⟩
  refine ⟨?_, ?_, ?_⟩
  · cases tok with
    | none => simp [lgRequestPlan, needsLogin, tokenIsNone]
    | some t =>
      by_cases h : exp < now + CLOCK_OUT_OF_SYNC_MAX_SEC
      · simp [lgRequestPlan, needsLogin, tokenIsNone, h]
      · simp [lgRequestPlan, needsLogin, tokenIsNone, h]
  · intro t ht hle
    simp only at ht
    subst ht
    have hn : ¬(exp < now + CLOCK_OUT_OF_SYNC_MAX_SEC) := not_lt.mpr hle
    simp [lgRequestPlan, needsLogin, tokenIsNone, hn]
  · intro ht
    simp only at ht
    subst ht
    simp [lgRequestPlan, needsLogin, tokenIsNone]

/-- C3 witness: with a valid token (expiry at least 20 seconds ahead) only the
target request is issued; with no token, exactly one login precedes it. -/
theorem lgRequestPlan_login_iff_witness :
    lgRequestPlan ⟨some (Json.str "tok"), 10000⟩ 0 "/inputs" =
      [CallEvent.request "/inputs"] ∧
    lgRequestPlan ⟨none, 0⟩ 1000 "/inputs" =
      [CallEvent.login, CallEvent.request "/inputs"] :=
  ⟨(lgRequestPlan_login_iff ⟨some (Json.str "tok"), 10000⟩ 0 "/inputs").2.1
      (Json.str "tok") rfl (by decide),
   (lgRequestPlan_login_iff ⟨none, 0⟩ 1000 "/inputs").2.2 rfl⟩

/-- C4 counterexample: the claim also asserts a reset of the credential state
when the login request errors, but when `_request` raises, `get_token`
propagates the exception and leaves `token` and `token_expires_at` unchanged
(here: still `"oldtoken"` and `1000`, not `None` and `0`). -/
theorem get_token_error_keeps_state :
    (get_token ⟨some (Json.str "oldtoken"), 1000⟩ 5000
        (Except.error ⟨OMErrorKind.connectionTimeoutError, "timeout"⟩)).1.token =
      some (Json.str "oldtoken") ∧
    (get_token ⟨some (Json.str "oldtoken"), 1000⟩ 5000
        (Except.error ⟨OMErrorKind.connectionTimeoutError, "timeout"⟩)).1.token_expires_at =
      1000 ∧
    some (Json.str "oldtoken") ≠ (none : Option Json) ∧ (1000 : Int) ≠ 0 :=
  ⟨rfl, rfl, by simp, by decide⟩

/-- C4 (amended): on a response with `success: true`, `get_token` stores the
response token and sets `token_expires_at = now + 3600`; on a response with
`success` not `True` it resets to `token = None`, `token_expires_at = 0`; if
the login request itself raises, the exception propagates and the credential
state is left unchanged. -/
theorem get_token_transitions (st : LGState) (now : Int) (j : Json) :
    (∀ t, jsonGet j "success" = some (Json.bool true) → jsonGet j "token" = some t →
      get_token st now (Except.ok j) =
        ({ token := storedToken t,
           token_expires_at := now + LOCAL_TOKEN_EXPIRES_IN }, none)) ∧
    (∀ s, jsonGet j "success" = some s → s ≠ Json.bool true →
      get_token st now (Except.ok j) = ({ token := none, token_expires_at := 0 }, none)) ∧
    (∀ e, get_token st now (Except.error e) = (st, some (PyFailure.om e))) := by
  refine ⟨?_, ?_, fun e => rfl⟩
  · intro t h1 h2
    simp only [get_token, h1, h2]
  · intro s h1 hne
    cases s with
    | bool b =>
      cases b with
      | true => exact absurd rfl hne
      | false => simp [get_token, h1]
    | null => simp [get_token, h1]
    | num n => simp [get_token, h1]
    | str s2 => simp [get_token, h1]
    | arr l => simp [get_token, h1]
    | obj o => simp [get_token, h1]

/-- C4 witness: a successful login stores the token with expiry `now + 3600`;
a `success: false` login resets the state. -/
theorem get_token_transitions_witness :
    get_token ⟨none, 0⟩ 50
        (Except.ok (Json.obj [("success", Json.bool true), ("token", Json.str "abc")])) =
      ({ token := some (Json.str "abc"), token_expires_at := 3650 }, none) ∧
    get_token ⟨some (Json.str "x"), 99⟩ 7 (Except.ok (Json.obj [("success", Json.bool false)])) =
      ({ token := none, token_expires_at := 0 }, none) :=
  ⟨(get_token_transitions ⟨none, 0⟩ 50
      (Json.obj [("success", Json.bool true), ("token", Json.str "abc")])).1
      (Json.str "abc") rfl rfl,
   (get_token_transitions ⟨some (Json.str "x"), 99⟩ 7
      (Json.obj [("success", Json.bool false)])).2.1 (Json.bool false) rfl (by simp)⟩

/-- C6: `close()` is idempotent and closes/clears only a self-created session
(a caller-supplied session is never closed, and a second `close()` is a
no-op); scoped use returns the client itself on enter and applies `close()`
exactly once on exit, whether the body raised or returned normally. -/
theorem close_idempotent_scoped :
    (∀ c : ClientConn, closeClient (closeClient c).1 = ((closeClient c).1, false)) ∧
    (∀ sid : Nat, closeClient (initClient (some sid)) = (initClient (some sid), false)) ∧
    (∀ fresh : Nat, closeClient (ensureSession (initClient none) fresh) =
      ({ session := none, close_session := true }, true)) ∧
    (∀ c : ClientConn, aenter c = c) ∧
    (∀ (E A : Type) (c : ClientConn) (body : ClientConn → ClientConn × Except E A),
      runScoped c body = ((closeClient (body c).1).1, (body c).2)) := by
  refine ⟨?_, fun sid => rfl, fun fresh => rfl, fun c => rfl, ?_⟩
  · intro c
    rcases c with ⟨sess, flag⟩
    cases sess <;> cases flag <;> rfl
  · intro E A c body
    rcases hb : body (aenter c) with ⟨c1, r⟩
    have hb2 : body c = (c1, r) := hb
    cases r with
    | ok a => simp [runScoped, hb, hb2]
    | error e => simp [runScoped, hb, hb2]

/-- C7 counterexample: with the default scheme `https` and the default port
`443`, `_get_url` elides the port, so the returned string is
`https://testlocalgw/test`, not of the literal `scheme://host:port/path`
shape (this matches the repository's own test for `_get_url`). -/
theorem lg_get_url_default_port_elided :
    lg_get_url "testlocalgw" lg_default_port "/test" lg_default_scheme =
      "https://testlocalgw/test" ∧
    lg_get_url "testlocalgw" lg_default_port "/test" lg_default_scheme ≠
      "https://testlocalgw:443/test" := by
  constructor
  · rfl
  · decide

/-- C7 (amended): for every simple path, `_get_url` returns
`scheme://host/path` when the port equals the scheme's default (in particular
for the defaults `https`/443) and `scheme://host:port/path` otherwise; the
scheme defaults to `https` and is overridable per call, the port defaults to
443, and a relative path is mounted under `/`. -/
theorem lg_get_url_shape (host path : String) (port : Nat) (scheme : String)
    (_hp : simplePath path) :
    (lg_get_url host lg_default_port path lg_default_scheme =
      "https://" ++ host ++ absolutePath path) ∧
    (yarlDefaultPort scheme ≠ some port →
      lg_get_url host port path scheme =
        scheme ++ "://" ++ host ++ ":" ++ toString port ++ absolutePath path) ∧
    (yarlDefaultPort scheme = some port →
      lg_get_url host port path scheme = scheme ++ "://" ++ host ++ absolutePath path) := by
  refine ⟨?_, ?_, ?_⟩
  · simp [lg_get_url, yarlBuildJoin, yarlDefaultPort, lg_default_scheme, lg_default_port,
      String.append_assoc]
  · intro h
    cases hd : yarlDefaultPort scheme with
    | none => simp [lg_get_url, yarlBuildJoin, hd, String.append_assoc]
    | some d =>
      have hdp : d ≠ port := by
        intro hh
        exact h (by rw [hd, hh])
      simp [lg_get_url, yarlBuildJoin, hd, hdp, String.append_assoc]
  · intro h
    simp [lg_get_url, yarlBuildJoin, h, String.append_assoc]

/-- C7 witness: a non-default scheme/port pair keeps the port in the URL
(as in the repository's test), and the relative `login` path is mounted under
the root with the default port elided. -/
theorem lg_get_url_shape_witness :
    lg_get_url "testlocalgw" 443 "/test" "http" = "http://testlocalgw:443/test" ∧
    lg_get_url "gw.local" 443 "login" "https" = "https://gw.local/login" :=
  ⟨(lg_get_url_shape "testlocalgw" "/test" 443 "http"
      ⟨by decide, by decide, by decide⟩).2.1 (by decide),
   (lg_get_url_shape "gw.local" "login" 443 "https"
      ⟨by decide, by decide, by decide⟩).2.2 (by decide)⟩

/-- C8 counterexample: deserializing the flattened object
`{"id": 5, "name": "Kitchen", "room": 2, "status": 1}` as `OMInput` does not
produce a record at all: the scalar `status` value `1` cannot be unpacked
into the nested `Status` dataclass (whose `__pre_deserialize__` dereferences
it as a mapping), so `from_dict` fails — and `OMInput` has no location field
to begin with. -/
theorem omInput_from_dict_kitchen_fails :
    OMInput.from_dict kitchenJson = Except.error "Status: value is not a mapping" := rfl

/-- C8 (amended): deserializing the object as `OMInput` fails on the scalar
`"status": 1` (no record is produced); without the `status` key it yields
`local_id = 5`, `name = "Kitchen"` and the flat `room = 2` — `OMInput` keeps
the room as a plain int and has no nested location. The `room` → `room_id`
expansion lives in the `Location` model (used by light/sensor/shutter/
groupaction records fed the whole flat object), which on this object yields
`room_id = 2`. -/
theorem omInput_from_dict_kitchen_amended :
    OMInput.from_dict kitchenJsonNoStatus =
      Except.ok { idx := 5, local_id := 5, name := "Kitchen", status := none,
                  last_state_change := 0, room := 2, version := "0.0" } ∧
    (OMInput.from_dict kitchenJson).isOk = false ∧
    Location.from_dict kitchenJson =
      Except.ok { installation_id := 0, gateway_id := 0, floor_id := 0, room_id := 2,
                  floor_coordinates := none } :=
  ⟨rfl, rfl, rfl⟩

/-- C9: the cloud outputs accessor `turn_on` posts `{"value": v}` with
`v = max(0, min(value, 100))` (hence `0 ≤ v ≤ 100`) to the `turn_on` path
when a value is given, and the empty object when the value is `None`. -/
theorem outputs_turn_on_clamps_value (installation_id output_id v : Int) :
    (outputs_turn_on installation_id output_id (some v)).2 =
      [("value", max 0 (min v 100))] ∧
    0 ≤ max 0 (min v 100) ∧ max 0 (min v 100) ≤ 100 ∧
    (outputs_turn_on installation_id output_id none).2 = [] ∧
    (outputs_turn_on installation_id output_id (some v)).1 =
      "/base/installations/" ++ toString installation_id ++ "/outputs/"
        ++ toString output_id ++ "/turn_on" := by
  refine ⟨rfl, le_max_left 0 (min v 100), ?_, rfl, rfl⟩
  exact max_le (by norm_num) (min_le_right v 100)

theorem dictSetStr_lookup_self (hs : List (String × String)) (k v : String) :
    (dictSetStr hs k v).lookup k = some v := by
  induction hs with
  | nil => simp [dictSetStr, List.lookup]
  | cons p rest ih =>
    rcases p with ⟨k2, v2⟩
    by_cases h : k2 = k
    · subst h
      simp [dictSetStr, List.lookup]
    · have hb1 : (k2 == k) = false := beq_eq_false_iff_ne.mpr h
      have hb2 : (k == k2) = false := beq_eq_false_iff_ne.mpr (Ne.symm h)
      simp [dictSetStr, List.lookup, hb1, hb2, ih]

theorem dictSetStr_lookup_ne (hs : List (String × String)) (k v k2 : String)
    (h : k2 ≠ k) : (dictSetStr hs k v).lookup k2 = hs.lookup k2 := by
  have hb : (k2 == k) = false := beq_eq_false_iff_ne.mpr h
  induction hs with
  | nil => simp [dictSetStr, List.lookup, hb]
  | cons p rest ih =>
    rcases p with ⟨k3, v3⟩
    by_cases h3 : k3 = k
    · subst h3
      simp [dictSetStr, List.lookup, hb]
    · have hb3 : (k3 == k) = false := beq_eq_false_iff_ne.mpr h3
      simp [dictSetStr, List.lookup, hb3, ih]

/-- C10: the stored token is the constructor argument stripped of surrounding
whitespace (`None` when the argument is `None` or empty); on every request the
authenticated headers carry `Authorization: Bearer <token>` exactly when the
stored token is non-empty, and `User-Agent` is always set, overwriting any
caller-supplied value. -/
theorem baseclient_token_and_headers (s ua t : String) (hs : List (String × String)) :
    stripToken none = none ∧
    stripToken (some "") = none ∧
    (s ≠ "" → stripToken (some s) = some (pyStrip s)) ∧
    (∀ (token : Option String) (hsOpt : Option (List (String × String))),
      (base_get_auth_headers token ua hsOpt).lookup "User-Agent" = some ua) ∧
    (t ≠ "" →
      (base_get_auth_headers (some t) ua (some hs)).lookup "Authorization" =
        some ("Bearer " ++ t)) ∧
    (hs.lookup "Authorization" = none →
      (base_get_auth_headers none ua (some hs)).lookup "Authorization" = none ∧
      (base_get_auth_headers (some "") ua (some hs)).lookup "Authorization" = none) := by
  refine ⟨rfl, rfl, ?_, ?_, ?_, ?_⟩
  · intro h
    simp [stripToken, h]
  · intro token hsOpt
    cases token with
    | none => simp [base_get_auth_headers, dictSetStr_lookup_self]
    | some t2 =>
      by_cases ht : t2 = ""
      · simp [base_get_auth_headers, ht, dictSetStr_lookup_self]
      · simp only [base_get_auth_headers, if_neg ht]
        rw [dictSetStr_lookup_ne _ _ _ _ (by decide), dictSetStr_lookup_self]
  · intro ht
    simp only [base_get_auth_headers, if_neg ht]
    rw [dictSetStr_lookup_self]
  · intro hnone
    constructor
    · simp only [base_get_auth_headers]
      rw [dictSetStr_lookup_ne _ _ _ _ (by decide)]
      exact hnone
    · have hred : base_get_auth_headers (some "") ua (some hs) =
          dictSetStr hs "User-Agent" ua := by
        simp [base_get_auth_headers]
      rw [hred, dictSetStr_lookup_ne _ _ _ _ (by decide)]
      exact hnone

/-- C10 witness: a padded token is stripped; a caller-supplied `User-Agent`
is overwritten; the bearer header is attached for a non-empty token and
absent when no token is stored. -/
theorem baseclient_token_and_headers_witness :
    stripToken (some "  my-token  ") = some "my-token" ∧
    (base_get_auth_headers (some "tok") "PyHAOpenMotics/0"
        (some [("User-Agent", "curl"), ("X", "y")])).lookup "User-Agent" =
      some "PyHAOpenMotics/0" ∧
    (base_get_auth_headers (some "tok") "PyHAOpenMotics/0"
        (some [("User-Agent", "curl"), ("X", "y")])).lookup "Authorization" =
      some "Bearer tok" ∧
    (base_get_auth_headers none "PyHAOpenMotics/0" (some [("X", "y")])).lookup
        "Authorization" = none :=
  ⟨by
    have h := (baseclient_token_and_headers "  my-token  " "PyHAOpenMotics/0" "tok"
      [("User-Agent", "curl"), ("X", "y")]).2.2.1 (by decide)
    rw [h]
    rfl,
   (baseclient_token_and_headers "  my-token  " "PyHAOpenMotics/0" "tok"
      [("User-Agent", "curl"), ("X", "y")]).2.2.2.1 (some "tok")
      (some [("User-Agent", "curl"), ("X", "y")]),
   (baseclient_token_and_headers "  my-token  " "PyHAOpenMotics/0" "tok"
      [("User-Agent", "curl"), ("X", "y")]).2.2.2.2.1 (by decide),
   ((baseclient_token_and_headers "  my-token  " "PyHAOpenMotics/0" "tok"
      [("X", "y")]).2.2.2.2.2 rfl).1⟩

end PyHAOM
